import Mathlib

/-!
Shallow embedding of the reward-and-observation shaping layer of the
CloseAirCombat baseline: the versioned posture-reward shaping functions
(`envs/JSBSim/reward_functions/posture_reward.py`) and the observation /
action normalization layer (`envs/JSBSim/tasks/singlecombat_task.py`).

Python floats are modelled as real numbers; numpy operations (`np.clip`,
`np.sign`, `np.arctanh`, `np.exp`, `np.tanh`, `np.min`, `np.linalg.norm`)
become the corresponding real operations.  Fallible construction
(`raise NotImplementedError`) becomes `Except String`.
-/

noncomputable section

namespace CloseAirCombat

/-- numpy `np.clip(x, lo, hi)`: clamp `x` into `[lo, hi]`. -/
def clip (x lo hi : ℝ) : ℝ := min (max x lo) hi

/-- numpy `np.arctanh`, the inverse hyperbolic tangent, in its standard
closed form `arctanh x = log ((1 + x) / (1 - x)) / 2`. -/
def arctanh (x : ℝ) : ℝ := Real.log ((1 + x) / (1 - x)) / 2

/-! ### PostureReward shaping functions (posture_reward.py) -/

/-- Orientation shaping, version `v0` (posture_reward.py, get_orientation_function). -/
def orientation_v0 (AO TA : ℝ) : ℝ :=
  (1 - Real.tanh (9 * (AO - Real.pi / 9))) / 3 + 1 / 3
    + min (arctanh (1 - max (2 * TA / Real.pi) 1e-4) / (2 * Real.pi)) 0 + 0.5

/-- Orientation shaping, version `v1` (posture_reward.py, get_orientation_function). -/
def orientation_v1 (AO TA : ℝ) : ℝ :=
  (1 - Real.tanh (2 * (AO - Real.pi / 2))) / 2
    * (arctanh (1 - max (2 * TA / Real.pi) 1e-4)) / (2 * Real.pi) + 0.5

/-- Orientation shaping, version `v2`, the default (posture_reward.py). -/
def orientation_v2 (AO TA : ℝ) : ℝ :=
  1 / (50 * AO / Real.pi + 2) + 1 / 2
    + min (arctanh (1 - max (2 * TA / Real.pi) 1e-4) / (2 * Real.pi)) 0 + 0.5

/-- Range shaping, version `v0` (posture_reward.py, get_range_funtion). -/
def range_v0 (target_dist R : ℝ) : ℝ :=
  Real.exp (-((R - target_dist) ^ 2) * 0.004)
    / (1 + Real.exp (-(R - target_dist + 2) * 2))

/-- Range shaping, version `v1` (posture_reward.py, get_range_funtion). -/
def range_v1 (target_dist R : ℝ) : ℝ :=
  clip (1.2 * min (Real.exp (-(R - target_dist) * 0.21)) 1
    / (1 + Real.exp (-(R - target_dist + 1) * 0.8))) 0.3 1

/-- Range shaping, version `v2`, the default (posture_reward.py):
the `v1` formula floored by `np.sign(7 - R)`. -/
def range_v2 (target_dist R : ℝ) : ℝ :=
  max (range_v1 target_dist R) (Real.sign (7 - R))

/-- Version dispatch of `PostureReward.get_orientation_function`; an
unrecognized tag raises `NotImplementedError`, modelled as `Except.error`. -/
def get_orientation_function (version : String) : Except String (ℝ → ℝ → ℝ) :=
  if version = "v0" then .ok orientation_v0
  else if version = "v1" then .ok orientation_v1
  else if version = "v2" then .ok orientation_v2
  else .error ("Unknown orientation function version: " ++ version)

/-- Version dispatch of `PostureReward.get_range_funtion` (sic); the returned
closure captures `self.target_dist`.  An unrecognized tag raises
`NotImplementedError`, modelled as `Except.error`. -/
def get_range_funtion (target_dist : ℝ) (version : String) : Except String (ℝ → ℝ) :=
  if version = "v0" then .ok (range_v0 target_dist)
  else if version = "v1" then .ok (range_v1 target_dist)
  else if version = "v2" then .ok (range_v2 target_dist)
  else .error ("Unknown range function version: " ++ version)

/-- The two configured shaping components a `PostureReward` instance holds
after `__init__` succeeded. -/
structure PostureRewardCfg where
  orientation_fn : ℝ → ℝ → ℝ
  range_fn : ℝ → ℝ

/-- `PostureReward.__init__`: resolves both version tags at construction
time; an unknown tag propagates the `NotImplementedError`. -/
def mkPostureReward (orientation_version range_version : String)
    (target_dist : ℝ) : Except String PostureRewardCfg :=
  match get_orientation_function orientation_version with
  | .error e => .error e
  | .ok ofn =>
    match get_range_funtion target_dist range_version with
    | .error e => .error e
    | .ok rfn => .ok ⟨ofn, rfn⟩

/-! ### Geometry (modelled from the spec; utils.get_AO_TA_R is outside the
excerpted sources) -/

/-- A 6-dimensional kinematic feature: local north/east/down position in
kilometres and north/east/down velocity in Mach units. -/
structure KinematicFeature where
  n : ℝ
  e : ℝ
  d : ℝ
  vn : ℝ
  ve : ℝ
  vd : ℝ

/-- Euclidean norm of a 3-vector (numpy `np.linalg.norm`). -/
def norm3 (x y z : ℝ) : ℝ := Real.sqrt (x ^ 2 + y ^ 2 + z ^ 2)

/-- Modelled from the spec: the geometry helper `get_AO_TA_R` from
`envs/JSBSim/utils/utils.py` is outside the excerpted sources.  Per the
spec: the relative position is enemy minus ego, `R` its Euclidean norm;
`AO` is `arccos(clip(dot(ego_v, los)/(|ego_v|*|los|), -1, 1))`; `TA` uses
the enemy velocity and the reversed line of sight; a zero-magnitude vector
falls back to angle 0 instead of a domain error. -/
def get_AO_TA_R (ego enm : KinematicFeature) : ℝ × ℝ × ℝ :=
  let dn := enm.n - ego.n
  let de := enm.e - ego.e
  let dd := enm.d - ego.d
  let R := norm3 dn de dd
  let egoSpeed := norm3 ego.vn ego.ve ego.vd
  let enmSpeed := norm3 enm.vn enm.ve enm.vd
  let AO := if egoSpeed = 0 ∨ R = 0 then 0 else
    Real.arccos (clip ((ego.vn * dn + ego.ve * de + ego.vd * dd) / (egoSpeed * R)) (-1) 1)
  let TA := if enmSpeed = 0 ∨ R = 0 then 0 else
    Real.arccos (clip ((enm.vn * (-dn) + enm.ve * (-de) + enm.vd * (-dd)) / (enmSpeed * R)) (-1) 1)
  (AO, TA, R)

/-- Modelled from the spec: the bearing-side flag returned by
`get_AO_TA_R(..., return_side=True)` — the sign of the 2D north-east
cross product between the ego heading and the line of sight, in {-1,0,1}. -/
def side_flag (ego enm : KinematicFeature) : ℝ :=
  Real.sign (ego.vn * (enm.e - ego.e) - ego.ve * (enm.n - ego.n))

/-! ### PostureReward.get_reward -/

/-- The reward breakdown reported per step: the scalar total plus the two
diagnostic sub-components (`reward_item_names` `_orn` and `_range`). -/
structure RewardBreakdown where
  total : ℝ
  orientation_component : ℝ
  range_component : ℝ

/-- Modelled from the spec: `BaseRewardFunction._process` (in
`reward_function_base.py`, outside the excerpted sources) returns the
scalar reward and records the given sub-components unchanged as the
diagnostic items. -/
def process (new_reward : ℝ) (items : ℝ × ℝ) : RewardBreakdown :=
  ⟨new_reward, items.1, items.2⟩

/-- `PostureReward.get_reward`: geometry from the two kinematic features,
then `orientation_fn(AO, TA) * range_fn(R)`, reported through `_process`
together with the two factors. -/
def get_reward (cfg : PostureRewardCfg) (ego enm : KinematicFeature) : RewardBreakdown :=
  let g := get_AO_TA_R ego enm
  let orientation_reward := cfg.orientation_fn g.1 g.2.1
  let range_reward := cfg.range_fn g.2.2
  let new_reward := orientation_reward * range_reward
  process new_reward (orientation_reward, range_reward)

/-! ### SingleCombatTask observation / action normalization -/

/-- One agent's raw simulator reading, ordered as `state_var`
(singlecombat_task.py): lon (deg), lat (deg), alt (ft), roll/pitch/yaw
(rad), v_north/v_east/v_down (fps), vc (fps), three accelerations (G). -/
structure RawState where
  lon : ℝ
  lat : ℝ
  alt : ℝ
  roll : ℝ
  pitch : ℝ
  yaw : ℝ
  v_north : ℝ
  v_east : ℝ
  v_down : ℝ
  vc : ℝ
  ax : ℝ
  ay : ℝ
  az : ℝ

/-- Modelled from the spec: `lonlat2dis` (in `envs/JSBSim/utils/utils.py`,
outside the excerpted sources) is an equirectangular-style lon/lat to
local-distance projection about a fixed origin; degrees become metres on a
spherical Earth, east scaled by the cosine of the origin latitude.
Returns (east, north) in metres. -/
def lonlat2dis (lon lat init_lon init_lat : ℝ) : ℝ × ℝ :=
  (6371000 * (Real.pi / 180) * (lon - init_lon) * Real.cos (init_lat * Real.pi / 180),
   6371000 * (Real.pi / 180) * (lat - init_lat))

/-- Step (0) of `normalize_observation._normalize`: the 6-dimensional
feature [north(km), east(km), down(km), v_n(mh), v_e(mh), v_d(mh)] of one
agent. -/
def mkFeature (o : RawState) (init_lon init_lat : ℝ) : KinematicFeature :=
  let en := lonlat2dis o.lon o.lat init_lon init_lat
  ⟨en.2 / 1000, en.1 / 1000, o.alt * 0.304 / 1000,
   o.v_north * 0.304 / 340, o.v_east * 0.304 / 340, o.v_down * 0.304 / 340⟩

/-- `SingleCombatTask.normalize_observation._normalize`: the 18 entries of
one agent's observation vector, in index order 0..17 exactly as assigned
in the source. -/
def normalize_observation (init_lon init_lat : ℝ) (ego_obs enm_obs : RawState) : List ℝ :=
  let ego_feature := mkFeature ego_obs init_lon init_lat
  let enm_feature := mkFeature enm_obs init_lon init_lat
  let g := get_AO_TA_R ego_feature enm_feature
  [ego_obs.alt * 0.304 / 5000,
   norm3 ego_feature.vn ego_feature.ve ego_feature.vd,
   ego_obs.v_down,
   Real.sin ego_obs.roll,
   Real.cos ego_obs.roll,
   Real.sin ego_obs.pitch,
   Real.cos ego_obs.pitch,
   ego_obs.vc * 0.304 / 340,
   ego_obs.ax,
   ego_obs.ay,
   ego_obs.az,
   g.2.2 / 10,
   g.1,
   g.2.1,
   side_flag ego_feature enm_feature,
   enm_obs.alt * 0.304 / 5000,
   norm3 enm_feature.vn enm_feature.ve enm_feature.vd,
   enm_obs.v_down]

/-- `SingleCombatTask.load_observation_space`: `Box(low=-10, high=10, shape=(18,))`. -/
def observation_space_low : ℝ := -10

/-- Upper bound of the declared per-agent observation space. -/
def observation_space_high : ℝ := 10

/-- Shape of the declared per-agent observation space. -/
def observation_space_shape : ℕ := 18

/-- `SingleCombatTask.normalize_action._normalize`: discrete indices for
aileron, elevator, rudder (`nvec` 41 each) and throttle (`nvec` 30) mapped
to continuous control values.  The source applies the linear formula with
no bounds check, so the index type is all of ℤ. -/
def normalize_action (a0 a1 a2 a3 : ℤ) : ℝ × ℝ × ℝ × ℝ :=
  ((a0 : ℝ) * 2 / (41 - 1) - 1,
   (a1 : ℝ) * 2 / (41 - 1) - 1,
   (a2 : ℝ) * 2 / (41 - 1) - 1,
   (a3 : ℝ) * 0.5 / (30 - 1) + 0.4)

/-- Modelled from the spec: the inverse quantization of the linear
de-quantization rule, `(value - lo) * (N - 1) / (hi - lo)`. -/
def inverse_quantization (lo hi : ℝ) (N : ℕ) (value : ℝ) : ℝ :=
  (value - lo) * ((N : ℝ) - 1) / (hi - lo)

/-- A concrete raw state inside a typical flight envelope: 20000 ft
altitude, level attitude, 200 fps northward, descending at 340 fps
(about Mach 0.3 vertically). -/
def typicalRawEgo : RawState := ⟨120.0, 60.0, 20000, 0, 0, 0, 200, 0, 340, 500, 0, 0, 1⟩

/-- A second concrete raw state for the opposing agent. -/
def typicalRawEnm : RawState := ⟨120.1, 60.0, 20000, 0, 0, 0, 200, 0, 0, 500, 0, 0, 1⟩

/-! ### Helper lemmas -/

/-- The inverse hyperbolic tangent is positive on (0, 1). -/
theorem arctanh_pos {x : ℝ} (h0 : 0 < x) (h1 : x < 1) : 0 < arctanh x := by
  have hx : (0 : ℝ) < 1 - x := by linarith
  have hlt : (1 : ℝ) < (1 + x) / (1 - x) := by
    rw [lt_div_iff₀ hx]; linarith
  exact div_pos (Real.log_pos hlt) (by norm_num)

/-- The inverse hyperbolic tangent vanishes at 0. -/
theorem arctanh_zero : arctanh 0 = 0 := by
  simp [arctanh]

/-- The clip never exceeds its upper bound. -/
theorem clip_le_hi (x lo hi : ℝ) : clip x lo hi ≤ hi := min_le_right _ _

/-- At `TA = π/2` the floored arctanh argument is exactly zero. -/
theorem ta_arg_at_half_pi : 1 - max (2 * (Real.pi / 2) / Real.pi) 1e-4 = 0 := by
  have h : 2 * (Real.pi / 2) / Real.pi = 1 := by
    field_simp
  rw [h, max_eq_left (by norm_num : (1e-4 : ℝ) ≤ 1)]
  norm_num

/-- At `TA = π/2` the whole (min-floored) target-aspect term is zero. -/
theorem ta_term_at_half_pi :
    min (arctanh (1 - max (2 * (Real.pi / 2) / Real.pi) 1e-4) / (2 * Real.pi)) 0 = 0 := by
  rw [ta_arg_at_half_pi, arctanh_zero, zero_div, min_self]

/-- At `TA = 0` the (min-floored) target-aspect term is zero, because the
arctanh argument is floored to `1 - 1e-4` and the arctanh is positive. -/
theorem ta_term_at_zero :
    min (arctanh (1 - max (2 * 0 / Real.pi) 1e-4) / (2 * Real.pi)) 0 = 0 := by
  have h : max (2 * 0 / Real.pi) 1e-4 = 1e-4 := by
    rw [mul_zero, zero_div]
    exact max_eq_right (by norm_num)
  rw [h]
  have hpos : 0 < arctanh (1 - 1e-4) := arctanh_pos (by norm_num) (by norm_num)
  exact min_eq_right (le_of_lt (div_pos hpos (by positivity)))

/-- The range `R` reported by the geometry helper is symmetric in the two
agents. -/
theorem get_AO_TA_R_range_symm (x y : KinematicFeature) :
    (get_AO_TA_R x y).2.2 = (get_AO_TA_R y x).2.2 := by
  show norm3 (y.n - x.n) (y.e - x.e) (y.d - x.d)
      = norm3 (x.n - y.n) (x.e - y.e) (x.d - y.d)
  unfold norm3
  ring_nf

/-! ### Claims -/

/-- C3: for every range `R`, the v2 range reward equals
`max(clipped v1 formula, sign(7 - R))`, hence is at least `sign(7 - R)`:
at least 1 below 7 km, at least 0 at 7 km, at least -1 beyond 7 km. -/
theorem range_v2_floor (td R : ℝ) :
    range_v2 td R = max (range_v1 td R) (Real.sign (7 - R))
    ∧ Real.sign (7 - R) ≤ range_v2 td R
    ∧ (R < 7 → 1 ≤ range_v2 td R)
    ∧ (R = 7 → 0 ≤ range_v2 td R)
    ∧ (7 < R → -1 ≤ range_v2 td R) := by
  have hfloor : Real.sign (7 - R) ≤ range_v2 td R := le_max_right _ _
  refine ⟨rfl, hfloor, ?_, ?_, ?_⟩
  · intro h
    calc (1 : ℝ) = Real.sign (7 - R) := (Real.sign_of_pos (by linarith)).symm
    _ ≤ range_v2 td R := hfloor
  · intro h
    calc (0 : ℝ) = Real.sign (7 - R) := by rw [h]; norm_num
    _ ≤ range_v2 td R := hfloor
  · intro h
    calc (-1 : ℝ) = Real.sign (7 - R) := (Real.sign_of_neg (by linarith)).symm
    _ ≤ range_v2 td R := hfloor

/-- Witness for C3 at `target_dist = 3`, `R = 10`: the v2 range reward at
10 km is at least -1. -/
theorem range_v2_floor_witness : -1 ≤ range_v2 3 10 :=
  (range_v2_floor 3 10).2.2.2.2 (by norm_num)

/-- C9: strictly below 7 km the v2 range reward is exactly 1, so the total
v2 posture reward reduces to the orientation component alone. -/
theorem range_v2_saturates_below_7km (td R orn : ℝ) (h : R < 7) :
    range_v2 td R = 1 ∧ orn * range_v2 td R = orn := by
  have hs : Real.sign (7 - R) = 1 := Real.sign_of_pos (by linarith)
  have hc : range_v1 td R ≤ 1 := clip_le_hi _ _ _
  have h1 : range_v2 td R = 1 := by
    unfold range_v2
    rw [hs]
    exact max_eq_right hc
  exact ⟨h1, by rw [h1, mul_one]⟩

/-- Witness for C9 at `target_dist = 3`, `R = 3`, orientation component 2. -/
theorem range_v2_saturates_below_7km_witness :
    range_v2 3 3 = 1 ∧ 2 * range_v2 3 3 = 2 :=
  range_v2_saturates_below_7km 3 3 2 (by norm_num)

/-- C2 counterexample: for orientation version v1 the target-aspect
contribution can exceed its value at `TA = π/2` — at `AO = π/2` the reward
at `TA = 0` is strictly larger than at `TA = π/2`, so the claim fails as
stated for v1 (its formula has no `min(..., 0)` floor). -/
theorem orientation_v1_ta_can_reward :
    orientation_v1 (Real.pi / 2) (Real.pi / 2) < orientation_v1 (Real.pi / 2) 0 := by
  unfold orientation_v1
  have h0 : 2 * (Real.pi / 2 - Real.pi / 2) = 0 := by ring
  rw [h0, Real.tanh_zero, ta_arg_at_half_pi, arctanh_zero]
  have hmax : max (2 * 0 / Real.pi) 1e-4 = 1e-4 := by
    rw [mul_zero, zero_div]
    exact max_eq_right (by norm_num)
  rw [hmax]
  have hpos : 0 < arctanh (1 - 1e-4) := arctanh_pos (by norm_num) (by norm_num)
  have h2pi : (0 : ℝ) < 2 * Real.pi := by positivity
  have hdiv : 0 < (1 - 0) / 2 * arctanh (1 - 1e-4) / (2 * Real.pi) := by positivity
  rw [mul_zero, zero_div]
  linarith [hdiv]

/-- C2 (amended to versions v0 and v2): for all `AO, TA` in `[0, π]` the
target-aspect contribution never increases the reward — the orientation
reward at `(AO, TA)` is at most its value at the same `AO` with `TA = π/2`,
where the min-floored arctanh term is zero. -/
theorem orientation_ta_only_penalizes (AO TA : ℝ) (h1 : 0 ≤ AO) (h2 : AO ≤ Real.pi)
    (h3 : 0 ≤ TA) (h4 : TA ≤ Real.pi) :
    orientation_v0 AO TA ≤ orientation_v0 AO (Real.pi / 2)
    ∧ orientation_v2 AO TA ≤ orientation_v2 AO (Real.pi / 2) := by
  have hle : min (arctanh (1 - max (2 * TA / Real.pi) 1e-4) / (2 * Real.pi)) 0 ≤ 0 :=
    min_le_right _ _
  constructor
  · unfold orientation_v0
    rw [ta_term_at_half_pi]
    linarith
  · unfold orientation_v2
    rw [ta_term_at_half_pi]
    linarith

/-- Witness for C2 (amended) at `AO = 0`, `TA = 0`. -/
theorem orientation_ta_only_penalizes_witness :
    orientation_v0 0 0 ≤ orientation_v0 0 (Real.pi / 2)
    ∧ orientation_v2 0 0 ≤ orientation_v2 0 (Real.pi / 2) :=
  orientation_ta_only_penalizes 0 0 le_rfl Real.pi_pos.le le_rfl Real.pi_pos.le

/-- C4: at `AO = 0`, `TA = 0` the v2 orientation reward is exactly
`1/2 + 1/2 + 0 + 0.5 = 3/2` (the min-floored arctanh term vanishes because
`arctanh(1 - 1e-4)` is positive), and `3/2` bounds the v2 orientation
reward over all `AO, TA` in `[0, π]`. -/
theorem orientation_v2_max_at_origin (AO TA : ℝ) (h1 : 0 ≤ AO) (h2 : AO ≤ Real.pi)
    (h3 : 0 ≤ TA) (h4 : TA ≤ Real.pi) :
    orientation_v2 0 0 = 3 / 2 ∧ orientation_v2 AO TA ≤ 3 / 2 := by
  constructor
  · unfold orientation_v2
    have h50 : 50 * (0 : ℝ) / Real.pi = 0 := by rw [mul_zero, zero_div]
    rw [h50, ta_term_at_zero]
    norm_num
  · unfold orientation_v2
    have hden : 0 ≤ 50 * AO / Real.pi :=
      div_nonneg (by linarith) Real.pi_pos.le
    have hA : 1 / (50 * AO / Real.pi + 2) ≤ 1 / 2 :=
      one_div_le_one_div_of_le (by norm_num) (by linarith)
    have hm : min (arctanh (1 - max (2 * TA / Real.pi) 1e-4) / (2 * Real.pi)) 0 ≤ 0 :=
      min_le_right _ _
    linarith

/-- Witness for C4 at `AO = 0`, `TA = 0`. -/
theorem orientation_v2_max_at_origin_witness :
    orientation_v2 0 0 = 3 / 2 ∧ orientation_v2 0 0 ≤ 3 / 2 :=
  orientation_v2_max_at_origin 0 0 le_rfl Real.pi_pos.le le_rfl Real.pi_pos.le

/-- C1: for every geometry triple produced by the geometry helper and every
successfully configured version pair, `get_reward` returns a total equal to
the product `orientation_fn(AO, TA) * range_fn(R)` and reports exactly those
two factors unchanged as the diagnostic sub-components. -/
theorem posture_total_is_product (ov rv : String) (td : ℝ) (cfg : PostureRewardCfg)
    (h : mkPostureReward ov rv td = Except.ok cfg) (ego enm : KinematicFeature) :
    (get_reward cfg ego enm).total
      = cfg.orientation_fn (get_AO_TA_R ego enm).1 (get_AO_TA_R ego enm).2.1
        * cfg.range_fn (get_AO_TA_R ego enm).2.2
    ∧ (get_reward cfg ego enm).orientation_component
      = cfg.orientation_fn (get_AO_TA_R ego enm).1 (get_AO_TA_R ego enm).2.1
    ∧ (get_reward cfg ego enm).range_component
      = cfg.range_fn (get_AO_TA_R ego enm).2.2 :=
  ⟨rfl, rfl, rfl⟩

/-- Witness for C1 with the default configuration (v2, v2, target 3 km) and
two concrete kinematic features. -/
theorem posture_total_is_product_witness :
    (get_reward ⟨orientation_v2, range_v2 3⟩ ⟨0, 0, 5, 0.5, 0, 0⟩ ⟨3, 0, 5, 0.5, 0, 0⟩).total
      = orientation_v2 (get_AO_TA_R ⟨0, 0, 5, 0.5, 0, 0⟩ ⟨3, 0, 5, 0.5, 0, 0⟩).1
          (get_AO_TA_R ⟨0, 0, 5, 0.5, 0, 0⟩ ⟨3, 0, 5, 0.5, 0, 0⟩).2.1
        * range_v2 3 (get_AO_TA_R ⟨0, 0, 5, 0.5, 0, 0⟩ ⟨3, 0, 5, 0.5, 0, 0⟩).2.2 :=
  (posture_total_is_product "v2" "v2" 3 ⟨orientation_v2, range_v2 3⟩ rfl
    ⟨0, 0, 5, 0.5, 0, 0⟩ ⟨3, 0, 5, 0.5, 0, 0⟩).1

/-- C5 (code bug): the declared observation space is `[-10, 10]^18`, but
index 2 of the normalized observation stores the raw `v_down` in feet per
second unconverted (the source comment says Mach units); a typical 340 fps
descent already leaves the declared box. -/
theorem observation_vdown_exceeds_box :
    observation_space_low = -10 ∧ observation_space_high = 10
    ∧ (normalize_observation 120 60 typicalRawEgo typicalRawEnm).length
        = observation_space_shape
    ∧ (normalize_observation 120 60 typicalRawEgo typicalRawEnm).getD 2 0 = 340
    ∧ observation_space_high
        < (normalize_observation 120 60 typicalRawEgo typicalRawEnm).getD 2 0 := by
  refine ⟨rfl, rfl, rfl, rfl, ?_⟩
  show (10 : ℝ) < 340
  norm_num

/-- C6: `normalize_observation` is agent-swap symmetric — agent 0's ego
altitude/speed/vertical-speed entries (indices 0, 1, 2) equal agent 1's
enemy-block entries (indices 15, 16, 17) and vice versa, and the relative
distance entry (index 11) is the same for both agents. -/
theorem observation_agent_swap_symmetric (il ilat : ℝ) (A B : RawState) :
    (normalize_observation il ilat A B).getD 0 0 = (normalize_observation il ilat B A).getD 15 0
    ∧ (normalize_observation il ilat A B).getD 1 0 = (normalize_observation il ilat B A).getD 16 0
    ∧ (normalize_observation il ilat A B).getD 2 0 = (normalize_observation il ilat B A).getD 17 0
    ∧ (normalize_observation il ilat A B).getD 15 0 = (normalize_observation il ilat B A).getD 0 0
    ∧ (normalize_observation il ilat A B).getD 16 0 = (normalize_observation il ilat B A).getD 1 0
    ∧ (normalize_observation il ilat A B).getD 17 0 = (normalize_observation il ilat B A).getD 2 0
    ∧ (normalize_observation il ilat A B).getD 11 0
        = (normalize_observation il ilat B A).getD 11 0 := by
  refine ⟨rfl, rfl, rfl, rfl, rfl, rfl, ?_⟩
  show (get_AO_TA_R (mkFeature A il ilat) (mkFeature B il ilat)).2.2 / 10
      = (get_AO_TA_R (mkFeature B il ilat) (mkFeature A il ilat)).2.2 / 10
  rw [get_AO_TA_R_range_symm]

/-- Witness for C6 at a concrete pair of raw states. -/
theorem observation_agent_swap_symmetric_witness :
    (normalize_observation 120 60 typicalRawEgo typicalRawEnm).getD 0 0
      = (normalize_observation 120 60 typicalRawEnm typicalRawEgo).getD 15 0 :=
  (observation_agent_swap_symmetric 120 60 typicalRawEgo typicalRawEnm).1

/-- C7: `normalize_action` realizes the linear de-quantization
`value = index * (hi - lo) / (N - 1) + lo` with `(N, lo, hi) = (41, -1, 1)`
for aileron/elevator/rudder and `(30, 0.4, 0.9)` for throttle; endpoints
map exactly and the inverse quantization recovers every in-range index. -/
theorem action_linear_roundtrip (i j : ℤ) (hi0 : 0 ≤ i) (hi1 : i ≤ 40)
    (hj0 : 0 ≤ j) (hj1 : j ≤ 29) :
    (normalize_action i i i j).1 = (i : ℝ) * (1 - (-1)) / (41 - 1) + (-1)
    ∧ (normalize_action i i i j).2.1 = (i : ℝ) * (1 - (-1)) / (41 - 1) + (-1)
    ∧ (normalize_action i i i j).2.2.1 = (i : ℝ) * (1 - (-1)) / (41 - 1) + (-1)
    ∧ (normalize_action i i i j).2.2.2 = (j : ℝ) * (0.9 - 0.4) / (30 - 1) + 0.4
    ∧ (normalize_action 0 0 0 0).1 = -1
    ∧ (normalize_action 40 40 40 29).1 = 1
    ∧ (normalize_action 0 0 0 0).2.2.2 = 0.4
    ∧ (normalize_action 40 40 40 29).2.2.2 = 0.9
    ∧ inverse_quantization (-1) 1 41 ((normalize_action i i i j).1) = i
    ∧ inverse_quantization 0.4 0.9 30 ((normalize_action i i i j).2.2.2) = j := by
  refine ⟨?_, ?_, ?_, ?_, by norm_num [normalize_action], by norm_num [normalize_action],
    by norm_num [normalize_action], by norm_num [normalize_action], ?_, ?_⟩
  · simp only [normalize_action]
    ring
  · simp only [normalize_action]
    ring
  · simp only [normalize_action]
    ring
  · simp only [normalize_action]
    norm_num
  · simp only [normalize_action, inverse_quantization]
    push_cast
    ring
  · simp only [normalize_action, inverse_quantization]
    push_cast
    ring

/-- Witness for C7 at the upper endpoints `i = 40`, `j = 29`. -/
theorem action_linear_roundtrip_witness :
    inverse_quantization 0.4 0.9 30 ((normalize_action 40 40 40 29).2.2.2) = 29 :=
  (action_linear_roundtrip 40 29 (by norm_num) (by norm_num) (by norm_num)
    (by norm_num)).2.2.2.2.2.2.2.2.2

/-- C8: constructing a `PostureReward` with an orientation or range version
tag outside {v0, v1, v2} fails at construction time, never silently
substituting a default, while any pair of recognized tags constructs
successfully. -/
theorem unknown_version_fails_construction (ov rv : String) (td : ℝ) :
    ((ov ≠ "v0" ∧ ov ≠ "v1" ∧ ov ≠ "v2") ∨ (rv ≠ "v0" ∧ rv ≠ "v1" ∧ rv ≠ "v2") →
      (mkPostureReward ov rv td).isOk = false)
    ∧ ((ov = "v0" ∨ ov = "v1" ∨ ov = "v2") → (rv = "v0" ∨ rv = "v1" ∨ rv = "v2") →
      (mkPostureReward ov rv td).isOk = true) := by
  constructor
  · rintro (⟨h0, h1, h2⟩ | ⟨h0, h1, h2⟩)
    · simp [mkPostureReward, get_orientation_function, h0, h1, h2, Except.isOk, Except.toBool]
    · by_cases e0 : ov = "v0"
      · subst e0
        simp [mkPostureReward, get_orientation_function, get_range_funtion, h0, h1, h2, Except.isOk, Except.toBool]
      · by_cases e1 : ov = "v1"
        · subst e1
          simp [mkPostureReward, get_orientation_function, get_range_funtion, h0, h1, h2, Except.isOk, Except.toBool]
        · by_cases e2 : ov = "v2"
          · subst e2
            simp [mkPostureReward, get_orientation_function, get_range_funtion, h0, h1, h2, Except.isOk, Except.toBool]
          · simp [mkPostureReward, get_orientation_function, e0, e1, e2, Except.isOk, Except.toBool]
  · rintro (rfl | rfl | rfl) (rfl | rfl | rfl) <;> rfl

/-- Witness for C8: version tag "v9" is rejected, the default pair
("v2", "v2") is accepted. -/
theorem unknown_version_fails_construction_witness :
    (mkPostureReward "v9" "v2" 3).isOk = false
    ∧ (mkPostureReward "v2" "v2" 3).isOk = true :=
  ⟨(unknown_version_fails_construction "v9" "v2" 3).1
      (Or.inl ⟨by decide, by decide, by decide⟩),
   (unknown_version_fails_construction "v2" "v2" 3).2
      (Or.inr (Or.inr rfl)) (Or.inr (Or.inr rfl))⟩

/-- C10: `normalize_action` performs no bounds check — every integer index,
in range or not, is mapped by the same linear formula; aileron index 50
yields 1.5 (outside [-1, 1]) and throttle index -1 yields a value below
0.4. -/
theorem action_no_bounds_check :
    (∀ a0 a1 a2 a3 : ℤ, normalize_action a0 a1 a2 a3 =
      ((a0 : ℝ) * 2 / (41 - 1) - 1, (a1 : ℝ) * 2 / (41 - 1) - 1,
       (a2 : ℝ) * 2 / (41 - 1) - 1, (a3 : ℝ) * 0.5 / (30 - 1) + 0.4))
    ∧ (normalize_action 50 0 0 0).1 = 1.5
    ∧ 1 < (normalize_action 50 0 0 0).1
    ∧ (normalize_action 0 0 0 (-1)).2.2.2 < 0.4 := by
  refine ⟨fun _ _ _ _ => rfl, ?_, ?_, ?_⟩ <;>
    · unfold normalize_action
      push_cast
      norm_num

end CloseAirCombat
